import Mathlib

/-!
Shallow embedding of the two dashboard widgets of this repository:
the Weibo hot-search widget (`src/unnamed/part_000`, package `glance`) and the
random-fact widget (`src/internal/glance/widget-random-fact.go`).

Modelling conventions:
* Go `int`/`int64` fields become `Int` (the claims never depend on wrap-around,
  and no arithmetic in the translated code can overflow for in-range inputs).
* `time.Time` timestamps and `time.Duration` values are `Int` nanoseconds, as
  in Go (`time.Duration` is an `int64` nanosecond count).
* Network I/O is factored out: each fetch takes the decoded outcome of the
  upstream round-trip as an explicit parameter (`Except String payload`), which
  stands for the request/send/status/read/decode stages of the source; the
  pure filtering and state-transition code is translated verbatim.
* The host framework type `widgetBase` and its hooks are not part of this
  repository's sources; they are modelled from the spec (section 6).
-/

/-- Modelled from the spec: the host framework's `widgetBase` (not under the
repository sources). Holds the widget-level fields the two widgets read and
write: title and cache-duration setters, the error-reporting hook `withError`,
the retry-scheduling hooks `scheduleEarlyUpdate` / `scheduleNextUpdate`, the
`ContentAvailable` flag and the yaml-loaded `CustomCacheDuration` option. -/
structure widgetBase where
  title : String := ""
  cacheDuration : Int := 0
  customCacheDuration : Int := 0
  contentAvailable : Bool := false
  err : Option String := none
  earlyUpdateRequested : Bool := false
  nextUpdateRequested : Bool := false
deriving DecidableEq

/-- Modelled from the spec: configuration setter for the widget title. -/
def widgetBase.withTitle (b : widgetBase) (t : String) : widgetBase :=
  { b with title := t }

/-- Modelled from the spec: configuration setter for the cache lifetime. -/
def widgetBase.withCacheDuration (b : widgetBase) (d : Int) : widgetBase :=
  { b with cacheDuration := d }

/-- Modelled from the spec: error-reporting hook; the error is captured on the
widget instance for later display. -/
def widgetBase.withError (b : widgetBase) (e : String) : widgetBase :=
  { b with err := some e }

/-- Modelled from the spec: asks the host for an earlier-than-normal retry. -/
def widgetBase.scheduleEarlyUpdate (b : widgetBase) : widgetBase :=
  { b with earlyUpdateRequested := true }

/-- Modelled from the spec: asks the host to schedule the next regular update. -/
def widgetBase.scheduleNextUpdate (b : widgetBase) : widgetBase :=
  { b with nextUpdateRequested := true }

/-- Which template a `Render` call hands to the host's `renderTemplate`:
`weiboFull` is `weibo.html` with the widget state, `randomFactFull` is
`random-fact.html` with the widget state, and `baseEmpty` is the bare
`widget-base.html` rendered with nil data (the empty/error fragment). -/
inductive TemplateId where
  | weiboFull
  | randomFactFull
  | baseEmpty
deriving DecidableEq

/-- A cancellation context handed to `update` by the host (Go
`context.Context`); only its identity matters for the embedding. -/
structure Ctx where
  id : Nat
deriving DecidableEq

/-- An outgoing HTTP request as the widgets build one: method, URL, headers,
and which cancellation context (if any of the ones supplied by the host) is
attached to it. `ctx := none` models a request built with `http.NewRequest`,
whose context is `context.Background()`, not the one supplied to `update`. -/
structure HTTPRequest where
  method : String
  url : String
  headers : List (String × String) := []
  ctx : Option Ctx := none
deriving DecidableEq

/-! ## Weibo hot-search widget (`src/unnamed/part_000`) -/

/-- One hot-search entry (`weiboHotSearchItem`, lines 35-61). Field defaults
are Go zero values. The `Monitors` field (`map[string]interface{}`) is decoded
but never read by any code in this file, and is omitted. -/
structure weiboHotSearchItem where
  Icon : String := ""
  IconWidth : Int := 0
  IconHeight : Int := 0
  Emoticon : String := ""
  Num : Int := 0
  Note : String := ""
  RealPos : Int := 0
  LabelName : String := ""
  SmallIconDesc : String := ""
  SmallIconDescColor : String := ""
  Flag : Int := 0
  IconDesc : String := ""
  IconDescColor : String := ""
  WordScheme : String := ""
  TopicFlag : Int := 0
  Word : String := ""
  Rank : Int := 0
  FlagDesc : String := ""
  DotIcon : Int := 0
  IsAd : Int := 0
  IconType : String := ""
  ID : Int := 0
deriving DecidableEq

/-- The singleton `hotgov` object of the API payload (lines 69-89). -/
structure weiboHotgov where
  SmallIconDesc : String := ""
  SmallIconDescColor : String := ""
  IconHeight : Int := 0
  IsHot : Int := 0
  Pos : Int := 0
  TopicFlag : Int := 0
  Word : String := ""
  IsGov : Int := 0
  Note : String := ""
  Name : String := ""
  URL : String := ""
  Flag : Int := 0
  IconWidth : Int := 0
  Stime : Int := 0
  IconDesc : String := ""
  Icon : String := ""
  IconDescColor : String := ""
  Mid : String := ""
deriving DecidableEq

/-- The `logs` object of the API payload (lines 90-93). -/
structure weiboLogs where
  ActCode : Int := 0
  Ext : String := ""
deriving DecidableEq

/-- The `data` object of the API payload (lines 66-94). -/
structure weiboAPIData where
  Realtime : List weiboHotSearchItem := []
  Hotgovs : List weiboHotSearchItem := []
  Hotgov : weiboHotgov := {}
  Logs : weiboLogs := {}
deriving DecidableEq

/-- The decoded API response (`weiboAPIResponse`, lines 64-95). -/
structure weiboAPIResponse where
  OK : Int := 0
  Data : weiboAPIData := {}
deriving DecidableEq

/-- A hot-search entry paired with its derived search URL; the source uses an
anonymous struct embedding `weiboHotSearchItem` plus a `URL` field. -/
structure weiboHotSearchWithURL where
  item : weiboHotSearchItem
  URL : String
deriving DecidableEq

/-- The widget state (`weiboWidget`, lines 17-32): yaml configuration fields,
the fetched item list and the last-updated timestamp. -/
structure weiboWidget where
  base : widgetBase := {}
  ShowCount : Int := 0
  Limit : Int := 0
  Category : String := ""
  RefreshInterval : Int := 0
  HotSearches : List weiboHotSearchWithURL := []
  LastUpdated : Int := 0
deriving DecidableEq

/-- Nanoseconds in a Go `time.Minute`. -/
def minuteNs : Int := 60 * 1000000000

/-- The weibo widget's Go initialization method (lines 97-120; its Go name is
reserved in this development): default title and 30-minute cache,
`limit` overrides `show-count` when positive, `show-count` is defaulted to 10
when non-positive and capped at 50, `refresh-interval` defaults to 30 minutes,
the cache duration is set to the refresh interval, and the content-available
flag is set. Always returns no error (`nil`). -/
def weiboWidget.initializeWidget (w : weiboWidget) : weiboWidget × Option String :=
  let w := { w with base := (w.base.withTitle "Weibo HotSearch").withCacheDuration (30 * minuteNs) }
  let w := if w.Limit > 0 then { w with ShowCount := w.Limit } else w
  let w := if w.ShowCount ≤ 0 then { w with ShowCount := 10 } else w
  let w := if w.ShowCount > 50 then { w with ShowCount := 50 } else w
  let w := if w.RefreshInterval ≤ 0 then { w with RefreshInterval := 30 } else w
  let w := { w with base := w.base.withCacheDuration (w.RefreshInterval * minuteNs) }
  let w := { w with base := { w.base with contentAvailable := true } }
  (w, none)

/-- Uppercase hexadecimal digit, as `url.QueryEscape` emits. -/
def hexDigitUpper (n : Nat) : Char :=
  if n < 10 then Char.ofNat (48 + n) else Char.ofNat (55 + n)

/-- Go `url.QueryEscape` keeps ASCII letters, digits and `-_.~` unescaped. -/
def isUnreservedByte (b : UInt8) : Bool :=
  (65 ≤ b && b ≤ 90) || (97 ≤ b && b ≤ 122) || (48 ≤ b && b ≤ 57) ||
    b == 45 || b == 95 || b == 46 || b == 126

/-- Go `url.QueryEscape` over the UTF-8 bytes of the string: unreserved bytes
pass through, a space becomes `+`, every other byte becomes `%XX` with
uppercase hex. -/
def queryEscape (s : String) : String :=
  s.toUTF8.toList.foldl
    (fun acc b =>
      if isUnreservedByte b then acc.push (Char.ofNat b.toNat)
      else if b == 32 then acc.push '+'
      else acc ++ "%" ++ String.mk [hexDigitUpper (b.toNat / 16), hexDigitUpper (b.toNat % 16)])
    ""

/-- `weiboWidget.fetchWeiboHotSearch` (lines 139-227). The `response`
parameter stands for the outcome of the network stages (request creation,
send, status check, body read, JSON decode, lines 139-183): `.error` for any
of their failures, `.ok` for a decoded payload. The remainder translates the
source directly: reject a payload whose `ok` flag is not 1; concatenate the
realtime and government entries; keep entries with a non-empty word that pass
the optional exact category filter; truncate to `ShowCount` when positive and
exceeded; pair every survivor with its derived search URL. -/
def weiboWidget.fetchWeiboHotSearch (w : weiboWidget)
    (response : Except String weiboAPIResponse) :
    Except String (List weiboHotSearchWithURL) :=
  match response with
  | .error e => .error e
  | .ok apiResponse =>
    if apiResponse.OK ≠ 1 then
      .error ("API返回错误状态: ok=" ++ toString apiResponse.OK)
    else
      let allItems := apiResponse.Data.Realtime ++ apiResponse.Data.Hotgovs
      let filteredHotSearches := allItems.filter (fun item =>
        item.Word != "" && !(w.Category != "" && item.LabelName != w.Category))
      let filteredHotSearches :=
        if w.ShowCount > 0 ∧ (filteredHotSearches.length : Int) > w.ShowCount then
          filteredHotSearches.take w.ShowCount.toNat
        else filteredHotSearches
      .ok (filteredHotSearches.map (fun item =>
        { item := item
          URL := "https://s.weibo.com/weibo?q=" ++ queryEscape item.WordScheme }))

/-- Environment of one `weiboWidget.update` call: the clock reading taken by
`time.Now()` and the decoded outcome of the upstream round-trip. -/
structure WeiboEnv where
  now : Int := 0
  response : Except String weiboAPIResponse := .error ""

/-- `weiboWidget.update` (lines 122-132): on fetch failure store the error and
request an early retry; on success replace the item list and the timestamp. -/
def weiboWidget.update (w : weiboWidget) (env : WeiboEnv) : weiboWidget :=
  match w.fetchWeiboHotSearch env.response with
  | .error e => { w with base := (w.base.withError e).scheduleEarlyUpdate }
  | .ok hotSearches => { w with HotSearches := hotSearches, LastUpdated := env.now }

/-- `weiboWidget.Render` (lines 134-136): always renders the full weibo
template with the widget's current state, touching nothing. -/
def weiboWidget.Render (w : weiboWidget) : weiboWidget × TemplateId :=
  (w, .weiboFull)

/-- The request built by `fetchWeiboHotSearch` (lines 144-157):
`http.NewRequestWithContext(ctx, "GET", apiURL, nil)` attaches the context
supplied to `update`, plus four browser-impersonating headers. -/
def weiboWidget.updateFetchRequest (ctx : Ctx) : HTTPRequest :=
  { method := "GET"
    url := "https://weibo.com/ajax/side/hotSearch"
    headers :=
      [("User-Agent", "Mozilla/5.0 (Windows NT 10.0; Win64; x64) AppleWebKit/537.36 (KHTML, like Gecko) Chrome/91.0.4472.124 Safari/537.36"),
       ("Accept", "application/json, text/plain, */*"),
       ("Accept-Language", "zh-CN,zh;q=0.9,en;q=0.8"),
       ("Referer", "https://weibo.com")]
    ctx := some ctx }

/-! ## Random-fact widget (`src/internal/glance/widget-random-fact.go`) -/

/-- The default fact cache duration, `2 * time.Hour` in nanoseconds (line 14). -/
def defaultFactCacheDuration : Int := 2 * 60 * 60 * 1000000000

/-- The cached fact record (`randomFactData`, lines 37-42). -/
structure randomFactData where
  FactID : String := ""
  FactText : String := ""
  Content : String := ""
  Source : String := ""
deriving DecidableEq

/-- The decoded trivia-API response (`rawFactResponse`, lines 45-52). -/
structure rawFactResponse where
  ID : String := ""
  Text : String := ""
  Source : String := ""
  SourceURL : String := ""
  Language : String := ""
  Permalink : String := ""
deriving DecidableEq

/-- The widget state (`randomFactWidget`, lines 23-34): yaml configuration for
the AI rewrite endpoint, the cached record and the last-refresh timestamp.
The yaml-loaded cache duration lives on `widgetBase.customCacheDuration`; the
`http.Client` handle built by `initialize` carries no observable state beyond
its fixed 30-second timeout and is omitted. -/
structure randomFactWidget where
  base : widgetBase := {}
  APIKey : String := ""
  Model : String := ""
  APIURL : String := ""
  CachedData : Option randomFactData := none
  lastUpdate : Int := 0
deriving DecidableEq

/-- The fact widget's Go initialization method (lines 69-91; its Go name is
reserved in this development): set the title and the cache
duration from the configured value; when the configured value is exactly zero,
substitute the 2-hour default (both on the yaml field and the cache lifetime).
The AI-configuration check only logs, and the HTTP client construction has no
observable effect here. Always returns no error (`nil`). -/
def randomFactWidget.initializeWidget (w : randomFactWidget) : randomFactWidget × Option String :=
  let w := { w with base := (w.base.withTitle "Random Fact").withCacheDuration w.base.customCacheDuration }
  let w :=
    if w.base.customCacheDuration = 0 then
      let b := { w.base with customCacheDuration := defaultFactCacheDuration }
      { w with base := b.withCacheDuration defaultFactCacheDuration }
    else w
  (w, none)

/-- The byte scan of `extractModelName` (lines 322-327) on the character list:
walk from the end of the string towards the front and return the part after
the first `/` found, `none` when there is no `/`. The Go code scans bytes, but
`/` (0x2F) occurs in UTF-8 only as the character `/`, so the byte scan and the
character scan agree. -/
def extractAfterSlash : List Char → Option (List Char)
  | [] => none
  | c :: rest =>
    match extractAfterSlash rest with
    | some suffix => some suffix
    | none => if c = '/' then some rest else none

/-- `extractModelName` (lines 315-329) as a function of the model string:
`"unknown"` for the empty identifier, the part after the last `/` when one is
present, the whole identifier otherwise. -/
def extractModelNameStr (m : String) : String :=
  if m.length = 0 then "unknown"
  else
    match extractAfterSlash m.data with
    | some suffix => String.mk suffix
    | none => m

/-- `randomFactWidget.extractModelName` (lines 315-329), reading the widget's
`Model` field. -/
def randomFactWidget.extractModelName (w : randomFactWidget) : String :=
  extractModelNameStr w.Model

/-- Environment of one `randomFactWidget.update` call: the clock reading, the
decoded outcome of `fetchRawFact` (lines 140-163: request build, send, status
check, JSON decode), and the outcome of `processWithAI` (lines 166-312: send,
status check, decode, error object, empty choices; `.ok` carries the first
choice's message content). -/
structure FactEnv where
  now : Int := 0
  rawFact : Except String rawFactResponse := .error ""
  aiResult : Except String String := .error ""

/-- `randomFactWidget.update` (lines 94-137). Returns the successor state and
whether the upstream fact fetch was performed. Short-circuits without fetching
when a cached record exists and is younger than the cache duration; on fact
fetch failure stores the error and requests an early retry; otherwise builds
the new record — rewritten content and model-derived source when the AI
endpoint is configured (falling back to the raw text when the rewrite call
fails), raw text and the trivia host otherwise — replaces the cache and the
timestamp, and asks for the next regular update. -/
def randomFactWidget.update (w : randomFactWidget) (env : FactEnv) :
    randomFactWidget × Bool :=
  let cacheDuration := w.base.customCacheDuration
  if w.CachedData.isSome ∧ env.now - w.lastUpdate < cacheDuration then
    (w, false)
  else
    match env.rawFact with
    | .error e => ({ w with base := (w.base.withError e).scheduleEarlyUpdate }, true)
    | .ok rawFact =>
      let hasAIConfig := w.APIKey != "" && w.Model != "" && w.APIURL != ""
      let processedContent :=
        if hasAIConfig then
          match env.aiResult with
          | .ok c => c
          | .error _ => rawFact.Text
        else rawFact.Text
      let source :=
        if hasAIConfig then w.extractModelName else "uselessfacts.jsph.pl"
      ({ w with
          CachedData := some
            { FactID := rawFact.ID
              FactText := rawFact.Text
              Content := processedContent
              Source := source }
          lastUpdate := env.now
          base := w.base.scheduleNextUpdate }, true)

/-- `randomFactWidget.Render` (lines 332-342): with no cached record, clear
the content-available flag, record a "no data available" error and render the
bare base template with nil data; with a cached record, set the flag and
render the full template with the widget state. -/
def randomFactWidget.Render (w : randomFactWidget) : randomFactWidget × TemplateId :=
  match w.CachedData with
  | none =>
    ({ w with base := ({ w.base with contentAvailable := false }).withError "no data available" },
      .baseEmpty)
  | some _ => ({ w with base := { w.base with contentAvailable := true } }, .randomFactFull)

/-- The request built by `fetchRawFact` (lines 141-144): it uses
`http.NewRequest("GET", factAPIURL, nil)`, which attaches
`context.Background()` — not the context supplied to `update`, which
`update` never passes down. The parameter is the context `update` received. -/
def randomFactWidget.updateFetchRequest (_ctx : Ctx) : HTTPRequest :=
  { method := "GET"
    url := "https://uselessfacts.jsph.pl/api/v2/facts/random"
    headers := []
    ctx := none }

/-! ## Hot-value formatting (`FormattedHotValue`, lines 230-237)

The source formats `float64(item.Num) / 1000000` (resp. `/ 1000`) with
`fmt.Sprintf("%.1f", _)`.  That is three exact roundings in sequence: the
`int64` to `float64` conversion (round to 53 significand bits, ties to even),
the `float64` division by an exactly-representable power of ten (again round
to 53 bits, ties to even), and the decimal formatting of the resulting binary
value to one fractional digit (round to nearest; Go's `strconv` resolves an
exact decimal tie — the binary value landing on an odd multiple of 1/4, such
as 1.25 — towards the even digit).  The pipeline below computes all three
steps with exact integer arithmetic. -/

/-- Fuel-driven floor of `log2` on naturals (`natLog2 0 = natLog2 1 = 0`). -/
def natLog2Aux : Nat → Nat → Nat
  | 0, _ => 0
  | fuel + 1, n => if n ≤ 1 then 0 else natLog2Aux fuel (n / 2) + 1

/-- Floor of `log2 n` for `n ≥ 1` (and `0` for `n = 0`). -/
def natLog2 (n : Nat) : Nat := natLog2Aux n n

/-- Whether `2 ^ e ≤ a / b` for positive naturals `a`, `b` and an integer
exponent `e`. -/
def pow2LeRat (e : Int) (a b : Nat) : Bool :=
  if 0 ≤ e then b * 2 ^ e.toNat ≤ a else b ≤ a * 2 ^ (-e).toNat

/-- Floor of `log2 (a / b)` for positive naturals `a`, `b`. -/
def floorLog2Rat (a b : Nat) : Int :=
  let g : Int := (natLog2 a : Int) - (natLog2 b : Int)
  if pow2LeRat (g + 1) a b then g + 1
  else if pow2LeRat g a b then g
  else g - 1

/-- Round the rational `a / b` (naturals, `b > 0`) to the nearest integer,
ties to even — the IEEE-754 default rounding. -/
def rndNearEven (a b : Nat) : Nat :=
  let q := a / b
  let r := a % b
  if 2 * r < b then q
  else if b < 2 * r then q + 1
  else if q % 2 = 0 then q else q + 1

/-- The IEEE binary64 value nearest to the positive rational `a / b`, as a
pair `(m, e)` with value `m * 2 ^ e` and `2 ^ 52 ≤ m < 2 ^ 53` (or `(0, 0)`
for `a = 0`).  Overflow and subnormal thresholds cannot be reached from the
`int64` inputs this models. -/
def fp53 (a b : Nat) : Nat × Int :=
  if a = 0 then (0, 0)
  else
    let e := floorLog2Rat a b
    let shift : Int := 52 - e
    let m :=
      if 0 ≤ shift then rndNearEven (a * 2 ^ shift.toNat) b
      else rndNearEven a (b * 2 ^ (-shift).toNat)
    if m = 2 ^ 53 then (2 ^ 52, e - 51) else (m, e - 52)

/-- `fmt.Sprintf("%.1f", float64(num) / float64(d))` for an integer `num` and
a positive integer constant `d` that is exactly representable in binary64
(here 1000 and 1000000): convert `num` to binary64, divide, and render the
result with one fractional decimal digit. -/
def fmtOneDecimalDiv (num d : Int) : String :=
  let n := num.natAbs
  let dn := d.natAbs
  let step1 := fp53 n 1
  let step2 :=
    if 0 ≤ step1.2 then fp53 (step1.1 * 2 ^ step1.2.toNat) dn
    else fp53 step1.1 (dn * 2 ^ (-step1.2).toNat)
  let tenths :=
    if 0 ≤ step2.2 then 10 * step2.1 * 2 ^ step2.2.toNat
    else rndNearEven (10 * step2.1) (2 ^ (-step2.2).toNat)
  let sign := if num < 0 then "-" else ""
  sign ++ toString (tenths / 10) ++ "." ++ toString (tenths % 10)

/-- `FormattedHotValue` (lines 230-237): popularity scores of at least one
million render as millions to one decimal with an `M` suffix, scores of at
least one thousand as thousands to one decimal with a `K` suffix, and smaller
scores as the plain decimal integer (`strconv.FormatInt(num, 10)`). -/
def weiboHotSearchItem.FormattedHotValue (item : weiboHotSearchItem) : String :=
  if item.Num ≥ 1000000 then fmtOneDecimalDiv item.Num 1000000 ++ "M"
  else if item.Num ≥ 1000 then fmtOneDecimalDiv item.Num 1000 ++ "K"
  else toString item.Num

/-- `CategoryDisplayName` (lines 240-259): fixed ten-entry abbreviation table,
falling back to the label itself. -/
def weiboHotSearchItem.CategoryDisplayName (item : weiboHotSearchItem) : String :=
  if item.LabelName = "娱乐" then "娱"
  else if item.LabelName = "社会" then "社"
  else if item.LabelName = "科技" then "科"
  else if item.LabelName = "体育" then "体"
  else if item.LabelName = "财经" then "财"
  else if item.LabelName = "热点" then "热"
  else if item.LabelName = "军事" then "军"
  else if item.LabelName = "国际" then "国"
  else if item.LabelName = "历史" then "史"
  else if item.LabelName = "美食" then "食"
  else item.LabelName

/-! ## Concrete inputs for the closed instances of the theorems below -/

/-- A hot-search item carrying only a popularity score (other fields are Go
zero values). -/
def mkNumItem (n : Int) : weiboHotSearchItem := { Num := n }

/-- A realtime entry with a non-empty word. -/
def itemA : weiboHotSearchItem :=
  { Word := "甲", WordScheme := "#甲#", LabelName := "热点", Num := 1500 }

/-- A second realtime entry with a non-empty word. -/
def itemB : weiboHotSearchItem := { Word := "乙", LabelName := "社会", Num := 999 }

/-- A government entry with a non-empty word. -/
def itemG : weiboHotSearchItem := { Word := "丙", Num := 2500000 }

/-- A hot-search widget configured to show two items with no category filter. -/
def wbW : weiboWidget := { ShowCount := 2 }

/-- A decoded payload with two realtime entries and one government entry. -/
def wbResp : weiboAPIResponse :=
  { OK := 1, Data := { Realtime := [itemA, itemB], Hotgovs := [itemG] } }

/-- An update environment whose round-trip failed. -/
def wbEnvFail : WeiboEnv := { now := 7, response := .error "请求失败: boom" }

/-- A cached fact record. -/
def factRec : randomFactData :=
  { FactID := "id1", FactText := "Penguins actually have knees.",
    Content := "Penguins actually have knees.", Source := "Qwen3-8B" }

/-- A fact widget with the AI rewrite endpoint configured, an empty cache and
a one-hour cache duration. -/
def rfW : randomFactWidget :=
  { APIKey := "k", Model := "Qwen/Qwen3-8B",
    APIURL := "https://api.siliconflow.cn/v1/chat/completions",
    base := { customCacheDuration := 3600000000000 } }

/-- A decoded trivia payload. -/
def rawF : rawFactResponse := { ID := "id1", Text := "Penguins actually have knees." }

/-- First-call environment: the fact fetch succeeds, the AI rewrite fails. -/
def rfEnv1 : FactEnv :=
  { now := 1000, rawFact := .ok rawF, aiResult := .error "AI API returned status code 500" }

/-- Second-call environment inside the cache window, with a failing fetch. -/
def rfEnv2 : FactEnv := { now := 2000, rawFact := .error "boom" }

/-- A fact widget holding both a cached record and a stored error from an
earlier failed refresh (reachable: a successful update followed by a failed
one). -/
def rfWErr : randomFactWidget :=
  { rfW with CachedData := some factRec,
             base := { rfW.base with err := some "API returned status code 500" } }

/-- A fact widget whose configured cache duration is negative. -/
def rfWNeg : randomFactWidget :=
  { base := { customCacheDuration := -1 }, CachedData := some factRec, lastUpdate := 0 }

/-- An update environment for `rfWNeg`: five nanoseconds after its last
refresh, with a failing fetch. -/
def rfEnvNeg : FactEnv := { now := 5, rawFact := .error "boom" }

/-! ## Helper lemmas -/

/-- A character list without `/` makes the backwards scan return `none`. -/
theorem extractAfterSlash_none (l : List Char) (h : '/' ∉ l) :
    extractAfterSlash l = none := by
  induction l with
  | nil => rfl
  | cons c rest ih =>
    have hc : ¬(c = '/') := fun hc => h (hc ▸ List.mem_cons_self c rest)
    have hr : '/' ∉ rest := fun hm => h (List.mem_cons_of_mem c hm)
    simp [extractAfterSlash, ih hr, hc]

/-- The backwards scan returns the part after the last `/`. -/
theorem extractAfterSlash_append (l r : List Char) (h : '/' ∉ r) :
    extractAfterSlash (l ++ '/' :: r) = some r := by
  induction l with
  | nil => simp [extractAfterSlash, extractAfterSlash_none r h]
  | cons c l ih => simp [extractAfterSlash, ih]

/-- Appending strings appends their character lists. -/
theorem string_data_append (p q : String) : (p ++ q).data = p.data ++ q.data := by
  cases p; cases q; rfl

/-- A string is the string of its character list. -/
theorem string_mk_data (s : String) : String.mk s.data = s := by
  cases s; rfl

/-- A cache hit makes `update` return the state unchanged with no fetch. -/
theorem update_cache_valid (v : randomFactWidget) (env : FactEnv)
    (h1 : v.CachedData.isSome) (h2 : env.now - v.lastUpdate < v.base.customCacheDuration) :
    v.update env = (v, false) := by
  simp only [randomFactWidget.update]
  rw [if_pos ⟨h1, h2⟩]

/-- Shape of a fact update whose fetch runs and succeeds. -/
theorem update_fetch_ok_shape (w : randomFactWidget) (env : FactEnv) (f : rawFactResponse)
    (hfirst : ¬(w.CachedData.isSome ∧ env.now - w.lastUpdate < w.base.customCacheDuration))
    (hok : env.rawFact = .ok f) :
    w.update env =
      ({ w with
          CachedData := some
            { FactID := f.ID
              FactText := f.Text
              Content :=
                if w.APIKey != "" && w.Model != "" && w.APIURL != "" then
                  match env.aiResult with
                  | .ok c => c
                  | .error _ => f.Text
                else f.Text
              Source :=
                if w.APIKey != "" && w.Model != "" && w.APIURL != "" then
                  w.extractModelName
                else "uselessfacts.jsph.pl" }
          lastUpdate := env.now
          base := w.base.scheduleNextUpdate }, true) := by
  simp only [randomFactWidget.update, if_neg hfirst, hok]

/-! ## Claim theorems -/

/-- Claim C2: for every configuration, `weiboWidget.initializeWidget` computes the
effective display count by letting a positive `limit` replace `show-count`,
then substituting 10 for a non-positive (or unset) value, capping values above
50 at 50 and keeping everything else; and it never fails. -/
theorem C2_initialize_showCount (w : weiboWidget) :
    (w.initializeWidget).2 = none ∧
    (w.initializeWidget).1.ShowCount =
      (let s := if 0 < w.Limit then w.Limit else w.ShowCount
       if s ≤ 0 then 10 else if 50 < s then 50 else s) := by
  refine ⟨rfl, ?_⟩
  simp only [weiboWidget.initializeWidget]
  split_ifs <;> simp_all

/-- Claim C6, counterexample: it is not the case that, for both widgets, the
request issued by the update's fetch carries the supplied cancellation
context — for the context with identity 0, the fact widget's request carries
no supplied context (`fetchRawFact` builds it with `http.NewRequest`). -/
theorem C6_context_cex :
    ¬ (∀ ctx : Ctx,
        (weiboWidget.updateFetchRequest ctx).ctx = some ctx ∧
        (randomFactWidget.updateFetchRequest ctx).ctx = some ctx) := by
  intro h
  exact absurd (h ⟨0⟩).2 (by decide)

/-- Claim C6 (amended): the hot-search widget's fetch request carries the
cancellation context supplied to `update`, so cancelling it aborts that
request; the fact widget's fetch request does not carry the supplied context
(its wait is bounded only by the client's fixed 30-second timeout). -/
theorem C6_context_amended (ctx : Ctx) :
    (weiboWidget.updateFetchRequest ctx).ctx = some ctx ∧
    (randomFactWidget.updateFetchRequest ctx).ctx = none :=
  ⟨rfl, rfl⟩

/-- Claim C5, counterexample: a fact widget holding a cached record and an
error stored by an earlier failed refresh still holds that error after
`Render`, so `Render` with a cached record does not leave the widget with no
error. -/
theorem C5_render_error_cex :
    rfWErr.CachedData.isSome = true ∧ (rfWErr.Render).1.base.err ≠ none := by
  exact ⟨rfl, by decide⟩

/-- Claim C5 (amended): `Render` with no cached record clears the
content-available flag, records a "no data available" error and renders the
empty/error template; `Render` with a cached record marks content available,
renders the full template with the cached record kept intact, and leaves the
error state unchanged (in particular it records no new error). -/
theorem C5_render_amended (w : randomFactWidget) :
    (w.CachedData = none →
      (w.Render).2 = TemplateId.baseEmpty ∧
      (w.Render).1.base.contentAvailable = false ∧
      (w.Render).1.base.err = some "no data available") ∧
    (w.CachedData.isSome →
      (w.Render).2 = TemplateId.randomFactFull ∧
      (w.Render).1.base.contentAvailable = true ∧
      (w.Render).1.base.err = w.base.err ∧
      (w.Render).1.CachedData = w.CachedData) := by
  cases h : w.CachedData <;>
    simp [randomFactWidget.Render, h, widgetBase.withError]

/-- Claim C5 (amended), closed instance at the concrete widget `rfWErr`. -/
theorem C5_render_amended_witness :
    rfWErr.CachedData.isSome ∧
    ((rfWErr.Render).2 = TemplateId.randomFactFull ∧
      (rfWErr.Render).1.base.contentAvailable = true ∧
      (rfWErr.Render).1.base.err = rfWErr.base.err ∧
      (rfWErr.Render).1.CachedData = rfWErr.CachedData) :=
  ⟨rfl, (C5_render_amended rfWErr).2 rfl⟩

/-- Claim C10: the hot-search widget never enters a no-content state —
`initialize` sets the content-available flag (and never fails), `update`
leaves the flag untouched on success and on failure, and `Render` always
renders the full weibo template with the current state, changing nothing and
recording no error. -/
theorem C10_weibo_always_content :
    (∀ w : weiboWidget,
        (w.initializeWidget).1.base.contentAvailable = true ∧ (w.initializeWidget).2 = none) ∧
    (∀ (w : weiboWidget) (env : WeiboEnv),
        (w.update env).base.contentAvailable = w.base.contentAvailable) ∧
    (∀ w : weiboWidget, w.Render = (w, TemplateId.weiboFull)) := by
  refine ⟨fun w => ⟨?_, rfl⟩, fun w env => ?_, fun w => rfl⟩
  · simp only [weiboWidget.initializeWidget]
  · cases h : w.fetchWeiboHotSearch env.response <;>
      simp [weiboWidget.update, h, widgetBase.withError, widgetBase.scheduleEarlyUpdate]

/-- Claim C3: a fact-widget `update` with a cached record younger than the
cache duration is a no-op — no upstream fetch, state returned unchanged; in
particular, after a first call that fetches successfully, a second call whose
clock reading lies within one cache window of the first performs no fetch, so
the two calls perform exactly one upstream fetch between them. -/
theorem C3_update_cache_window (w : randomFactWidget) (env1 env2 : FactEnv)
    (f : rawFactResponse)
    (hfirst : ¬(w.CachedData.isSome ∧ env1.now - w.lastUpdate < w.base.customCacheDuration))
    (hok : env1.rawFact = .ok f)
    (hwin : env2.now - env1.now < w.base.customCacheDuration) :
    (∀ (v : randomFactWidget) (env : FactEnv),
        v.CachedData.isSome → env.now - v.lastUpdate < v.base.customCacheDuration →
        v.update env = (v, false)) ∧
    (w.update env1).2 = true ∧
    ((w.update env1).1.update env2) = ((w.update env1).1, false) := by
  refine ⟨update_cache_valid, ?_, ?_⟩
  · rw [update_fetch_ok_shape w env1 f hfirst hok]
  · rw [update_fetch_ok_shape w env1 f hfirst hok]
    exact update_cache_valid _ env2 rfl hwin

/-- Claim C3, closed instance: the widget `rfW` updated twice, first at
`rfEnv1` (successful fetch), then at `rfEnv2` within the cache window. -/
theorem C3_update_cache_window_witness :
    (¬(rfW.CachedData.isSome ∧ rfEnv1.now - rfW.lastUpdate < rfW.base.customCacheDuration)) ∧
    rfEnv1.rawFact = .ok rawF ∧
    rfEnv2.now - rfEnv1.now < rfW.base.customCacheDuration ∧
    ((rfW.update rfEnv1).2 = true ∧
      ((rfW.update rfEnv1).1.update rfEnv2) = ((rfW.update rfEnv1).1, false)) := by
  have h := C3_update_cache_window rfW rfEnv1 rfEnv2 rawF (by decide) rfl (by decide)
  exact ⟨by decide, rfl, by decide, h.2⟩

/-- Claim C4: when the AI rewrite is configured and the rewrite call fails,
`update` still succeeds — the cached record is replaced with the raw fact
text as content and the model identifier's suffix after the last `/` as
source, the timestamp is refreshed, the next regular update is requested, and
no error or early retry is recorded.  The trailing conjuncts pin down the
source label: the empty identifier yields `"unknown"`, an identifier with a
`/` yields the part after the last `/`, and an identifier without `/` is used
whole. -/
theorem C4_ai_rewrite_fallback (w : randomFactWidget) (env : FactEnv)
    (f : rawFactResponse) (e : String)
    (hfirst : ¬(w.CachedData.isSome ∧ env.now - w.lastUpdate < w.base.customCacheDuration))
    (hok : env.rawFact = .ok f)
    (hkey : w.APIKey ≠ "") (hmodel : w.Model ≠ "") (hurl : w.APIURL ≠ "")
    (hfail : env.aiResult = .error e) :
    ((w.update env).1.CachedData =
        some { FactID := f.ID, FactText := f.Text, Content := f.Text,
               Source := extractModelNameStr w.Model } ∧
      (w.update env).2 = true ∧
      (w.update env).1.base.err = w.base.err ∧
      (w.update env).1.base.earlyUpdateRequested = w.base.earlyUpdateRequested ∧
      (w.update env).1.base.nextUpdateRequested = true ∧
      (w.update env).1.lastUpdate = env.now) ∧
    extractModelNameStr "" = "unknown" ∧
    (∀ p s : String, '/' ∉ s.data → extractModelNameStr (p ++ "/" ++ s) = s) ∧
    (∀ m : String, m ≠ "" → '/' ∉ m.data → extractModelNameStr m = m) := by
  refine ⟨?_, rfl, ?_, ?_⟩
  · rw [update_fetch_ok_shape w env f hfirst hok]
    have hai : (w.APIKey != "" && w.Model != "" && w.APIURL != "") = true := by
      simp [hkey, hmodel, hurl]
    simp [hai, hfail, randomFactWidget.extractModelName,
      widgetBase.scheduleNextUpdate]
  · intro p s hs
    have hone : ("/" : String).length = 1 := rfl
    have hsplit : (p ++ "/" ++ s).length = p.length + 1 + s.length := by
      simp [String.length_append, hone]
    have hlen : (p ++ "/" ++ s).length ≠ 0 := by omega
    have hdata : (p ++ "/" ++ s).data = p.data ++ '/' :: s.data := by
      rw [string_data_append, string_data_append]
      simp
    rw [extractModelNameStr, if_neg hlen, hdata, extractAfterSlash_append p.data s.data hs]
  · intro m hm hslash
    have hlen : m.length ≠ 0 := by
      intro h0
      apply hm
      have hd : m.data = [] := List.length_eq_zero.mp h0
      rw [← string_mk_data m, hd]
    rw [extractModelNameStr, if_neg hlen, extractAfterSlash_none m.data hslash]

/-- Claim C4, closed instance at `rfW` and `rfEnv1` (AI configured, rewrite
call failed with a non-200 status). -/
theorem C4_ai_rewrite_fallback_witness :
    (¬(rfW.CachedData.isSome ∧ rfEnv1.now - rfW.lastUpdate < rfW.base.customCacheDuration)) ∧
    rfEnv1.rawFact = .ok rawF ∧
    rfW.APIKey ≠ "" ∧ rfW.Model ≠ "" ∧ rfW.APIURL ≠ "" ∧
    rfEnv1.aiResult = .error "AI API returned status code 500" ∧
    (((rfW.update rfEnv1).1.CachedData =
        some { FactID := rawF.ID, FactText := rawF.Text, Content := rawF.Text,
               Source := extractModelNameStr rfW.Model } ∧
      (rfW.update rfEnv1).2 = true ∧
      (rfW.update rfEnv1).1.base.err = rfW.base.err ∧
      (rfW.update rfEnv1).1.base.earlyUpdateRequested = rfW.base.earlyUpdateRequested ∧
      (rfW.update rfEnv1).1.base.nextUpdateRequested = true ∧
      (rfW.update rfEnv1).1.lastUpdate = rfEnv1.now) ∧
    extractModelNameStr "" = "unknown" ∧
    (∀ p s : String, '/' ∉ s.data → extractModelNameStr (p ++ "/" ++ s) = s) ∧
    (∀ m : String, m ≠ "" → '/' ∉ m.data → extractModelNameStr m = m)) :=
  ⟨by decide, rfl, by decide, by decide, by decide, rfl,
    C4_ai_rewrite_fallback rfW rfEnv1 rawF "AI API returned status code 500"
      (by decide) rfl (by decide) (by decide) (by decide) rfl⟩

/-- Claim C7: for both widgets, a failed fetch makes `update` store the error
on the widget and request an early retry while leaving the cached data and
the last-updated timestamp unchanged; a successful fetch replaces the cached
data and the timestamp. -/
theorem C7_failure_frame :
    (∀ (w : weiboWidget) (env : WeiboEnv) (e : String),
        w.fetchWeiboHotSearch env.response = .error e →
        (w.update env).base.err = some e ∧
        (w.update env).base.earlyUpdateRequested = true ∧
        (w.update env).HotSearches = w.HotSearches ∧
        (w.update env).LastUpdated = w.LastUpdated) ∧
    (∀ (w : weiboWidget) (env : WeiboEnv) (items : List weiboHotSearchWithURL),
        w.fetchWeiboHotSearch env.response = .ok items →
        (w.update env).HotSearches = items ∧ (w.update env).LastUpdated = env.now) ∧
    (∀ (w : randomFactWidget) (env : FactEnv) (e : String),
        ¬(w.CachedData.isSome ∧ env.now - w.lastUpdate < w.base.customCacheDuration) →
        env.rawFact = .error e →
        (w.update env).1.base.err = some e ∧
        (w.update env).1.base.earlyUpdateRequested = true ∧
        (w.update env).1.CachedData = w.CachedData ∧
        (w.update env).1.lastUpdate = w.lastUpdate) ∧
    (∀ (w : randomFactWidget) (env : FactEnv) (f : rawFactResponse),
        ¬(w.CachedData.isSome ∧ env.now - w.lastUpdate < w.base.customCacheDuration) →
        env.rawFact = .ok f →
        (w.update env).1.CachedData.isSome ∧ (w.update env).1.lastUpdate = env.now) := by
  refine ⟨fun w env e h => ?_, fun w env items h => ?_,
    fun w env e h1 h2 => ?_, fun w env f h1 h2 => ?_⟩
  · simp [weiboWidget.update, h, widgetBase.withError, widgetBase.scheduleEarlyUpdate]
  · simp [weiboWidget.update, h]
  · simp only [randomFactWidget.update, if_neg h1, h2]
    simp [widgetBase.withError, widgetBase.scheduleEarlyUpdate]
  · rw [update_fetch_ok_shape w env f h1 h2]
    exact ⟨rfl, rfl⟩

/-- Claim C7, closed instance: a failed hot-search round-trip at `wbEnvFail`
stores the error, requests an early retry and leaves the data untouched. -/
theorem C7_failure_frame_witness :
    wbW.fetchWeiboHotSearch wbEnvFail.response = .error "请求失败: boom" ∧
    ((wbW.update wbEnvFail).base.err = some "请求失败: boom" ∧
      (wbW.update wbEnvFail).base.earlyUpdateRequested = true ∧
      (wbW.update wbEnvFail).HotSearches = wbW.HotSearches ∧
      (wbW.update wbEnvFail).LastUpdated = wbW.LastUpdated) :=
  ⟨rfl, C7_failure_frame.1 wbW wbEnvFail "请求失败: boom" rfl⟩

/-- Claim C9: `randomFactWidget.initializeWidget` substitutes the 2-hour default
cache duration only when the configured duration is exactly zero, so a
negative configured duration is kept; and with a negative duration every
`update` call (with a non-negative elapsed time since the last refresh, as
the monotonic clock guarantees) bypasses the cache check and performs the
upstream fetch even though a cached record exists. -/
theorem C9_negative_cache_duration (w : randomFactWidget) (env : FactEnv)
    (hneg : w.base.customCacheDuration < 0)
    (hmono : 0 ≤ env.now - w.lastUpdate) :
    (∀ v : randomFactWidget,
        (v.initializeWidget).1.base.customCacheDuration =
          if v.base.customCacheDuration = 0 then defaultFactCacheDuration
          else v.base.customCacheDuration) ∧
    (w.initializeWidget).1.base.customCacheDuration = w.base.customCacheDuration ∧
    (w.update env).2 = true := by
  have hinit : ∀ v : randomFactWidget,
      (v.initializeWidget).1.base.customCacheDuration =
        if v.base.customCacheDuration = 0 then defaultFactCacheDuration
        else v.base.customCacheDuration := by
    intro v
    simp only [randomFactWidget.initializeWidget, widgetBase.withTitle, widgetBase.withCacheDuration]
    split_ifs <;> rfl
  refine ⟨hinit, ?_, ?_⟩
  · rw [hinit w, if_neg (by omega)]
  · simp only [randomFactWidget.update]
    rw [if_neg (by rintro ⟨-, hlt⟩; omega)]
    cases henv : env.rawFact <;> simp [henv]

/-- Claim C9, closed instance at the negative-duration widget `rfWNeg`. -/
theorem C9_negative_cache_duration_witness :
    rfWNeg.base.customCacheDuration < 0 ∧
    0 ≤ rfEnvNeg.now - rfWNeg.lastUpdate ∧
    ((rfWNeg.initializeWidget).1.base.customCacheDuration = rfWNeg.base.customCacheDuration ∧
      (rfWNeg.update rfEnvNeg).2 = true) := by
  have h := C9_negative_cache_duration rfWNeg rfEnvNeg (by decide) (by decide)
  exact ⟨by decide, by decide, h.2.1, h.2.2⟩

/-- Claim C8: `FormattedHotValue` is a pure function of the item's popularity
score: scores of at least one million format as the score over 1e6 to one
decimal with an `M` suffix, scores of at least one thousand as the score over
1e3 to one decimal with a `K` suffix, and smaller scores as the plain decimal
integer; concretely 999 renders as "999", 1500 as "1.5K" and 2500000 as
"2.5M". -/
theorem C8_formattedHotValue :
    (∀ a b : weiboHotSearchItem, a.Num = b.Num →
        a.FormattedHotValue = b.FormattedHotValue) ∧
    (∀ it : weiboHotSearchItem, 1000000 ≤ it.Num →
        it.FormattedHotValue = fmtOneDecimalDiv it.Num 1000000 ++ "M") ∧
    (∀ it : weiboHotSearchItem, 1000 ≤ it.Num → it.Num < 1000000 →
        it.FormattedHotValue = fmtOneDecimalDiv it.Num 1000 ++ "K") ∧
    (∀ it : weiboHotSearchItem, it.Num < 1000 →
        it.FormattedHotValue = toString it.Num) ∧
    (mkNumItem 999).FormattedHotValue = "999" ∧
    (mkNumItem 1500).FormattedHotValue = "1.5K" ∧
    (mkNumItem 2500000).FormattedHotValue = "2.5M" := by
  refine ⟨fun a b h => ?_, fun it h => ?_, fun it h1 h2 => ?_, fun it h => ?_, ?_, ?_, ?_⟩
  · simp only [weiboHotSearchItem.FormattedHotValue, h]
  · unfold weiboHotSearchItem.FormattedHotValue
    rw [if_pos h]
  · unfold weiboHotSearchItem.FormattedHotValue
    rw [if_neg (by omega), if_pos h1]
  · unfold weiboHotSearchItem.FormattedHotValue
    rw [if_neg (by omega), if_neg (by omega)]
  · rfl
  · rfl
  · rfl

/-- Claim C8, closed instance at the score 2500000. -/
theorem C8_formattedHotValue_witness :
    1000000 ≤ (mkNumItem 2500000).Num ∧
    (mkNumItem 2500000).FormattedHotValue =
      fmtOneDecimalDiv (mkNumItem 2500000).Num 1000000 ++ "M" :=
  ⟨by decide, C8_formattedHotValue.2.1 (mkNumItem 2500000) (by decide)⟩

/-- The source's guarded truncation (slice only when the count is positive
and exceeded) equals an unguarded `take` under a positive count and does
nothing under a non-positive count. -/
theorem truncGuard_eq {α : Type} (sc : Int) (xs : List α) :
    (if sc > 0 ∧ (xs.length : Int) > sc then xs.take sc.toNat else xs) =
      (if 0 < sc then xs.take sc.toNat else xs) := by
  by_cases hpos : 0 < sc
  · by_cases hlen : (xs.length : Int) > sc
    · rw [if_pos ⟨hpos, hlen⟩, if_pos hpos]
    · rw [if_neg (fun hc => hlen hc.2), if_pos hpos,
        List.take_of_length_le (by omega)]
  · rw [if_neg (fun hc => hpos hc.1), if_neg hpos]

/-- Claim C1: for every decoded payload accepted by the API-status check, the
fetch result lists the realtime entries followed by the government entries in
provider order, with empty-word entries removed, entries whose label differs
from a configured category removed (case-sensitive exact match), and the list
truncated to the effective display count when that count is positive (no
truncation otherwise); with all words non-empty and no category filter the
result has exactly min(N + M, effective count) items. -/
theorem C1_fetch_filter_order (w : weiboWidget) (resp : weiboAPIResponse)
    (hok : resp.OK = 1) :
    ∃ items, w.fetchWeiboHotSearch (.ok resp) = .ok items ∧
      items.map weiboHotSearchWithURL.item =
        (if 0 < w.ShowCount then
          ((resp.Data.Realtime ++ resp.Data.Hotgovs).filter
            (fun item =>
              decide (item.Word ≠ "" ∧
                (w.Category = "" ∨ item.LabelName = w.Category)))).take w.ShowCount.toNat
        else
          (resp.Data.Realtime ++ resp.Data.Hotgovs).filter
            (fun item =>
              decide (item.Word ≠ "" ∧
                (w.Category = "" ∨ item.LabelName = w.Category)))) ∧
      ((w.Category = "" ∧ ∀ item ∈ resp.Data.Realtime ++ resp.Data.Hotgovs, item.Word ≠ "") →
        items.length =
          if 0 < w.ShowCount then
            min (resp.Data.Realtime.length + resp.Data.Hotgovs.length) w.ShowCount.toNat
          else resp.Data.Realtime.length + resp.Data.Hotgovs.length) := by
  have hpred : ∀ item : weiboHotSearchItem,
      (item.Word != "" && !(w.Category != "" && item.LabelName != w.Category)) =
        decide (item.Word ≠ "" ∧ (w.Category = "" ∨ item.LabelName = w.Category)) := by
    intro item
    by_cases h1 : item.Word = "" <;> by_cases h2 : w.Category = "" <;>
      by_cases h3 : item.LabelName = w.Category <;> simp [h1, h2, h3]
  have hfilter : (resp.Data.Realtime ++ resp.Data.Hotgovs).filter
      (fun item => item.Word != "" && !(w.Category != "" && item.LabelName != w.Category)) =
      (resp.Data.Realtime ++ resp.Data.Hotgovs).filter
      (fun item =>
        decide (item.Word ≠ "" ∧ (w.Category = "" ∨ item.LabelName = w.Category))) :=
    List.filter_congr (fun x _ => hpred x)
  simp only [weiboWidget.fetchWeiboHotSearch]
  rw [if_neg (fun h => h hok)]
  refine ⟨_, rfl, ?_, ?_⟩
  · rw [hfilter, truncGuard_eq, List.map_map]
    have hcomp : (weiboHotSearchWithURL.item ∘ fun item =>
        ({ item := item,
           URL := "https://s.weibo.com/weibo?q=" ++ queryEscape item.WordScheme } :
          weiboHotSearchWithURL)) = fun item => item := rfl
    rw [hcomp]
    simp
  · rintro ⟨hcat, hwords⟩
    have hall : (resp.Data.Realtime ++ resp.Data.Hotgovs).filter
        (fun item =>
          decide (item.Word ≠ "" ∧ (w.Category = "" ∨ item.LabelName = w.Category))) =
        resp.Data.Realtime ++ resp.Data.Hotgovs :=
      List.filter_eq_self.mpr (fun a ha => by simp [hcat, hwords a ha])
    rw [List.length_map, hfilter, truncGuard_eq, hall]
    by_cases hpos : 0 < w.ShowCount
    · rw [if_pos hpos, if_pos hpos, List.length_take, List.length_append]
      omega
    · rw [if_neg hpos, if_neg hpos, List.length_append]

/-- Claim C1, closed instance at the widget `wbW` (count 2, no filter) and
the payload `wbResp` (two realtime entries, one government entry). -/
theorem C1_fetch_filter_order_witness :
    wbResp.OK = 1 ∧
    ∃ items, wbW.fetchWeiboHotSearch (.ok wbResp) = .ok items ∧
      items.map weiboHotSearchWithURL.item =
        (if 0 < wbW.ShowCount then
          ((wbResp.Data.Realtime ++ wbResp.Data.Hotgovs).filter
            (fun item =>
              decide (item.Word ≠ "" ∧
                (wbW.Category = "" ∨ item.LabelName = wbW.Category)))).take wbW.ShowCount.toNat
        else
          (wbResp.Data.Realtime ++ wbResp.Data.Hotgovs).filter
            (fun item =>
              decide (item.Word ≠ "" ∧
                (wbW.Category = "" ∨ item.LabelName = wbW.Category)))) ∧
      ((wbW.Category = "" ∧
          ∀ item ∈ wbResp.Data.Realtime ++ wbResp.Data.Hotgovs, item.Word ≠ "") →
        items.length =
          if 0 < wbW.ShowCount then
            min (wbResp.Data.Realtime.length + wbResp.Data.Hotgovs.length) wbW.ShowCount.toNat
          else wbResp.Data.Realtime.length + wbResp.Data.Hotgovs.length) :=
  ⟨rfl, C1_fetch_filter_order wbW wbResp rfl⟩
